import Mathlib

/-!
Gas limit range, verification and suggestion (`consensus/misc/gaslimit.go`).

A shallow embedding of the three functions of `consensus/misc/gaslimit.go`:
`gasLimitRange`, `VerifyGaslimit` and `CalcGasLimit`.

Modelling conventions.

* A Go `uint64` is a natural number below `2 ^ 64`; the wrapping operations
  `add64`, `sub64` and `mul64` reduce modulo `2 ^ 64` explicitly.  Division of
  two in-range values never leaves the range, so it is plain division on
  naturals, except that Go panics on a zero divisor: a function that may panic
  returns `Option`, and `none` is the panic.
* A `*big.Int` block number is an `Int`.
* `params.ChainConfig` is represented by the three methods the file calls
  (`IsLondon`, `IsEIP7782`, `ElasticityMultiplier`); their bodies live in the
  `params` package and every result below holds for arbitrary ones.
* The four package-level constants of `params` read by `gasLimitRange` are the
  fields of `ProtocolParams`, passed as the first argument.
* The `error` returned by `VerifyGaslimit` is either `nil` or the value built
  by `fmt.Errorf`, recorded as its format string and its argument list.
-/

namespace Misc

/-! ## Machine integers -/

/-- The number of values of a Go `uint64`. -/
def uint64Mod : Nat := 2 ^ 64

/-- Wrapping `uint64` addition. -/
def add64 (a b : Nat) : Nat := (a + b) % uint64Mod

/-- Wrapping `uint64` subtraction. -/
def sub64 (a b : Nat) : Nat := (a + (uint64Mod - b % uint64Mod)) % uint64Mod

/-- Wrapping `uint64` multiplication. -/
def mul64 (a b : Nat) : Nat := (a * b) % uint64Mod

/-! ## Data model -/

/-- The fields of `types.Header` read by this file. -/
structure Header where
  /-- Block height, `*big.Int` in the source. -/
  Number : Int
  /-- Block timestamp, `uint64`. -/
  Time : Nat
  /-- Declared gas limit, `uint64`. -/
  GasLimit : Nat
  deriving DecidableEq, Repr

/-- The methods of `params.ChainConfig` called by this file. -/
structure ChainConfig where
  /-- Whether London is active at a block number. -/
  IsLondon : Int → Bool
  /-- Whether EIP-7782 is active at a block number and timestamp. -/
  IsEIP7782 : Int → Nat → Bool
  /-- The elasticity multiplier, `uint64`. -/
  ElasticityMultiplier : Nat

/-- The constants of package `params` read by `gasLimitRange`, all `uint64`. -/
structure ProtocolParams where
  GasLimitBoundDivisor : Nat
  MinGasLimit : Nat
  GasLimitBoundDivisorEIP7782 : Nat
  MinGasLimitEIP7782 : Nat
  deriving DecidableEq, Repr

/-- A Go `error` as produced by this file: `nil`, or the result of
`fmt.Errorf format args...`. -/
inductive Error where
  | nil : Error
  | Errorf (format : String) (args : List Nat) : Error
  deriving DecidableEq, Repr

/-! ## The source functions -/

/-- Embedding of `gasLimitRange`: the inclusive range of valid values for
`GasLimit`.  The result is `none` exactly when the integer division panics. -/
def gasLimitRange (P : ProtocolParams) (config : ChainConfig) (parent header : Header) :
    Option (Nat × Nat) :=
  let parentGasLimit := parent.GasLimit
  -- Handle the London fork transition
  let parentGasLimit :=
    if !config.IsLondon parent.Number && config.IsLondon header.Number then
      mul64 parentGasLimit config.ElasticityMultiplier
    else parentGasLimit
  -- Handle the EIP-7782 fork transition
  let parentGasLimit :=
    if !config.IsEIP7782 parent.Number parent.Time &&
        config.IsEIP7782 header.Number header.Time then
      parentGasLimit / 2
    else parentGasLimit
  -- Get correct GasLimitBoundDivisor and MinGasLimit
  let gasLimitBoundDivisor :=
    if config.IsEIP7782 header.Number header.Time then P.GasLimitBoundDivisorEIP7782
    else P.GasLimitBoundDivisor
  let minGasLimit :=
    if config.IsEIP7782 header.Number header.Time then P.MinGasLimitEIP7782
    else P.MinGasLimit
  if gasLimitBoundDivisor = 0 then none
  else
    let maxDiff := sub64 (parentGasLimit / gasLimitBoundDivisor) 1
    let low := max (sub64 parentGasLimit maxDiff) minGasLimit
    let high := add64 parentGasLimit maxDiff
    some (low, high)

/-- The format string of the error built by `VerifyGaslimit`. -/
def invalidGasLimitFormat : String :=
  "invalid gas limit: parent %d -> want [%d, %d], have %d"

/-- Embedding of `VerifyGaslimit`: `some Error.nil` is a `nil` return. -/
def VerifyGaslimit (P : ProtocolParams) (config : ChainConfig) (parent header : Header) :
    Option Error :=
  match gasLimitRange P config parent header with
  | none => none
  | some (low, high) =>
    if header.GasLimit < low || header.GasLimit > high then
      some (Error.Errorf invalidGasLimitFormat
        [parent.GasLimit, low, high, header.GasLimit])
    else
      some Error.nil

/-- Embedding of `CalcGasLimit`. -/
def CalcGasLimit (P : ProtocolParams) (config : ChainConfig) (parent header : Header)
    (desiredGasLimit : Nat) : Option Nat :=
  match gasLimitRange P config parent header with
  | none => none
  | some (low, high) =>
    if desiredGasLimit < low then some low
    else if desiredGasLimit > high then some high
    else some desiredGasLimit

/-! ## Named intermediate values of `gasLimitRange` -/

/-- The value of `parentGasLimit` after the London step (source lines 61-66). -/
def londonBase (config : ChainConfig) (parent header : Header) : Nat :=
  if !config.IsLondon parent.Number && config.IsLondon header.Number then
    mul64 parent.GasLimit config.ElasticityMultiplier
  else parent.GasLimit

/-- The EIP-7782 step (source lines 68-71) applied to a value of
`parentGasLimit`. -/
def eip7782Base (config : ChainConfig) (parent header : Header) (parentGasLimit : Nat) : Nat :=
  if !config.IsEIP7782 parent.Number parent.Time &&
      config.IsEIP7782 header.Number header.Time then
    parentGasLimit / 2
  else parentGasLimit

/-- The value of `parentGasLimit` that enters the range formula (after source
line 71). -/
def adjustedBase (config : ChainConfig) (parent header : Header) : Nat :=
  eip7782Base config parent header (londonBase config parent header)

/-- The selected `gasLimitBoundDivisor` (source lines 74-79). -/
def boundDivisor (P : ProtocolParams) (config : ChainConfig) (header : Header) : Nat :=
  if config.IsEIP7782 header.Number header.Time then P.GasLimitBoundDivisorEIP7782
  else P.GasLimitBoundDivisor

/-- The selected `minGasLimit` (source lines 75-79). -/
def minGasLimit (P : ProtocolParams) (config : ChainConfig) (header : Header) : Nat :=
  if config.IsEIP7782 header.Number header.Time then P.MinGasLimitEIP7782
  else P.MinGasLimit

/-- The range formula (source lines 81-86) run from a given `parentGasLimit`,
divisor and minimum. -/
def rangeFormula (divisor minimum parentGasLimit : Nat) : Option (Nat × Nat) :=
  if divisor = 0 then none
  else
    let maxDiff := sub64 (parentGasLimit / divisor) 1
    some (max (sub64 parentGasLimit maxDiff) minimum, add64 parentGasLimit maxDiff)

/-- Source lines 73-86 run from a given value of `parentGasLimit`. -/
def rangeOfBase (P : ProtocolParams) (config : ChainConfig) (header : Header)
    (parentGasLimit : Nat) : Option (Nat × Nat) :=
  rangeFormula (boundDivisor P config header) (minGasLimit P config header) parentGasLimit

/-- The value of `maxDiff` (source line 81) when the division does not panic. -/
def maxDiff (P : ProtocolParams) (config : ChainConfig) (parent header : Header) : Nat :=
  sub64 (adjustedBase config parent header / boundDivisor P config header) 1

/-! ## Concrete inputs -/

/-- Constants with the pre-EIP-7782 pair `(1024, 5000)`; the EIP-7782 pair is
an arbitrary choice, used only where EIP-7782 is active. -/
def exampleParams : ProtocolParams :=
  { GasLimitBoundDivisor := 1024, MinGasLimit := 5000,
    GasLimitBoundDivisorEIP7782 := 2048, MinGasLimitEIP7782 := 2500 }

/-- A configuration with London active everywhere and EIP-7782 nowhere. -/
def londonConfig : ChainConfig :=
  { IsLondon := fun _ => true, IsEIP7782 := fun _ _ => false, ElasticityMultiplier := 2 }

/-- A header with the given number, time and gas limit. -/
def mkHeader (number : Int) (time gasLimit : Nat) : Header :=
  { Number := number, Time := time, GasLimit := gasLimit }

/-- A header equal to `header` except for its gas limit. -/
def withGasLimit (header : Header) (gasLimit : Nat) : Header :=
  { header with GasLimit := gasLimit }

/-- A configuration with both forks scheduled: London from block 5, EIP-7782
from block 5 and time 1000. -/
def forkConfig : ChainConfig :=
  { IsLondon := fun n => decide (5 ≤ n),
    IsEIP7782 := fun n t => decide (5 ≤ n) && decide (1000 ≤ t),
    ElasticityMultiplier := 2 }

/-! ## The specification's tables -/

/-- The fork-A rule in the specification's words: the base is multiplied by
the elasticity multiplier when fork A is inactive at the parent and active at
the candidate, and is unchanged in the three other cases. -/
def forkABase (activeAtParent activeAtHeader : Bool) (parentGasLimit multiplier : Nat) : Nat :=
  match activeAtParent, activeAtHeader with
  | false, true => mul64 parentGasLimit multiplier
  | true, true => parentGasLimit
  | false, false => parentGasLimit
  | true, false => parentGasLimit

/-- The fork-B rule in the specification's words: the base is halved when
fork B is inactive at the parent and active at the candidate, and is unchanged
in the three other cases. -/
def forkBBase (activeAtParent activeAtHeader : Bool) (base : Nat) : Nat :=
  match activeAtParent, activeAtHeader with
  | false, true => base / 2
  | true, true => base
  | false, false => base
  | true, false => base

/-- The constant selection in the specification's words: the post-fork-B pair
`(divisor, minimum)` when fork B is active at the candidate, the pre-fork-B
pair otherwise. -/
def selectedConstants (P : ProtocolParams) (activeAtHeader : Bool) : Nat × Nat :=
  match activeAtHeader with
  | true => (P.GasLimitBoundDivisorEIP7782, P.MinGasLimitEIP7782)
  | false => (P.GasLimitBoundDivisor, P.MinGasLimit)

/-! ## Arithmetic of the wrapping operations -/

theorem uint64Mod_eq : uint64Mod = 18446744073709551616 := by
  decide

theorem sub64_of_le {a b : Nat} (hba : b ≤ a) (ha : a < uint64Mod) : sub64 a b = a - b := by
  unfold sub64
  rw [uint64Mod_eq] at ha ⊢
  omega

theorem add64_of_lt {a b : Nat} (hab : a + b < uint64Mod) : add64 a b = a + b := by
  unfold add64
  exact Nat.mod_eq_of_lt hab

/-! ## Structure of `gasLimitRange` -/

theorem gasLimitRange_eq_rangeOfBase (P : ProtocolParams) (config : ChainConfig)
    (parent header : Header) :
    gasLimitRange P config parent header =
      rangeOfBase P config header (adjustedBase config parent header) := by
  rfl

theorem rangeFormula_of_ne_zero {divisor : Nat} (minimum base : Nat) (hd : divisor ≠ 0) :
    rangeFormula divisor minimum base =
      some (max (sub64 base (sub64 (base / divisor) 1)) minimum,
        add64 base (sub64 (base / divisor) 1)) := by
  unfold rangeFormula
  rw [if_neg hd]

theorem gasLimitRange_of_ne_zero (P : ProtocolParams) (config : ChainConfig)
    (parent header : Header) (hd : boundDivisor P config header ≠ 0) :
    gasLimitRange P config parent header =
      some (max (sub64 (adjustedBase config parent header) (maxDiff P config parent header))
          (minGasLimit P config header),
        add64 (adjustedBase config parent header) (maxDiff P config parent header)) := by
  rw [gasLimitRange_eq_rangeOfBase]
  unfold rangeOfBase
  rw [rangeFormula_of_ne_zero _ _ hd]
  rfl

theorem gasLimitRange_eq_none_iff (P : ProtocolParams) (config : ChainConfig)
    (parent header : Header) :
    gasLimitRange P config parent header = none ↔ boundDivisor P config header = 0 := by
  constructor
  · intro hnone
    by_contra hd
    rw [gasLimitRange_of_ne_zero P config parent header hd] at hnone
    exact Option.noConfusion hnone
  · intro hd
    rw [gasLimitRange_eq_rangeOfBase]
    unfold rangeOfBase rangeFormula
    rw [if_pos hd]

theorem VerifyGaslimit_of_range {P : ProtocolParams} {config : ChainConfig}
    {parent header : Header} {low high : Nat}
    (hr : gasLimitRange P config parent header = some (low, high)) :
    VerifyGaslimit P config parent header =
      if header.GasLimit < low || header.GasLimit > high then
        some (Error.Errorf invalidGasLimitFormat [parent.GasLimit, low, high, header.GasLimit])
      else some Error.nil := by
  unfold VerifyGaslimit
  rw [hr]

theorem CalcGasLimit_of_range {P : ProtocolParams} {config : ChainConfig}
    {parent header : Header} {low high : Nat} (desiredGasLimit : Nat)
    (hr : gasLimitRange P config parent header = some (low, high)) :
    CalcGasLimit P config parent header desiredGasLimit =
      if desiredGasLimit < low then some low
      else if desiredGasLimit > high then some high
      else some desiredGasLimit := by
  unfold CalcGasLimit
  rw [hr]

theorem gasLimitRange_withGasLimit (P : ProtocolParams) (config : ChainConfig)
    (parent header : Header) (gasLimit : Nat) :
    gasLimitRange P config parent (withGasLimit header gasLimit) =
      gasLimitRange P config parent header := by
  rfl

/-! ## Verification against the range -/

/-- C1: when the selected divisor is not zero, `gasLimitRange` returns a pair
`(low, high)`, and `VerifyGaslimit` returns `nil` if and only if
`low <= header.GasLimit <= high`; otherwise it returns an error. -/
theorem VerifyGaslimit_nil_iff (P : ProtocolParams) (config : ChainConfig)
    (parent header : Header) (hd : boundDivisor P config header ≠ 0) :
    ∃ low high, gasLimitRange P config parent header = some (low, high) ∧
      (VerifyGaslimit P config parent header = some Error.nil ↔
        low ≤ header.GasLimit ∧ header.GasLimit ≤ high) ∧
      (¬ (low ≤ header.GasLimit ∧ header.GasLimit ≤ high) →
        ∃ format args,
          VerifyGaslimit P config parent header = some (Error.Errorf format args)) := by
  refine ⟨_, _, gasLimitRange_of_ne_zero P config parent header hd, ?_, ?_⟩
  · rw [VerifyGaslimit_of_range (gasLimitRange_of_ne_zero P config parent header hd)]
    split
    · rename_i hout
      simp only [Bool.or_eq_true, decide_eq_true_eq] at hout
      constructor
      · intro hv
        simp at hv
      · intro hin
        omega
    · rename_i hout
      simp only [Bool.or_eq_true, decide_eq_true_eq] at hout
      constructor
      · intro _
        omega
      · intro _
        rfl
  · intro hnot
    rw [VerifyGaslimit_of_range (gasLimitRange_of_ne_zero P config parent header hd)]
    have hout : (decide (header.GasLimit <
          max (sub64 (adjustedBase config parent header) (maxDiff P config parent header))
            (minGasLimit P config header)) ||
        decide (header.GasLimit >
          add64 (adjustedBase config parent header) (maxDiff P config parent header))) = true := by
      simp only [Bool.or_eq_true, decide_eq_true_eq]
      omega
    rw [if_pos hout]
    exact ⟨_, _, rfl⟩

/-- Witness for C1: a header inside the range of a 30,000,000 parent. -/
theorem VerifyGaslimit_nil_iff_witness :
    boundDivisor exampleParams londonConfig (mkHeader 11 112 30000000) ≠ 0 ∧
    ∃ low high,
      gasLimitRange exampleParams londonConfig (mkHeader 10 100 30000000)
        (mkHeader 11 112 30000000) = some (low, high) ∧
      (VerifyGaslimit exampleParams londonConfig (mkHeader 10 100 30000000)
          (mkHeader 11 112 30000000) = some Error.nil ↔
        low ≤ (mkHeader 11 112 30000000).GasLimit ∧
          (mkHeader 11 112 30000000).GasLimit ≤ high) ∧
      (¬ (low ≤ (mkHeader 11 112 30000000).GasLimit ∧
          (mkHeader 11 112 30000000).GasLimit ≤ high) →
        ∃ format args,
          VerifyGaslimit exampleParams londonConfig (mkHeader 10 100 30000000)
            (mkHeader 11 112 30000000) = some (Error.Errorf format args)) :=
  ⟨by decide, VerifyGaslimit_nil_iff exampleParams londonConfig (mkHeader 10 100 30000000)
    (mkHeader 11 112 30000000) (by decide)⟩

/-! ## Clamping into the range -/

/-- C2, counterexample: for a parent with gas limit 100 (divisor 1024, minimum
5000) the range is `(5000, 99)`, and `CalcGasLimit` with desired value 0
returns 5000, which is above `high`. -/
theorem CalcGasLimit_in_range_counterexample :
    gasLimitRange exampleParams londonConfig (mkHeader 10 100 100) (mkHeader 11 112 0) =
        some (5000, 99) ∧
      CalcGasLimit exampleParams londonConfig (mkHeader 10 100 100) (mkHeader 11 112 0) 0 =
        some 5000 ∧
      ¬ ∃ low high r,
        gasLimitRange exampleParams londonConfig (mkHeader 10 100 100) (mkHeader 11 112 0) =
          some (low, high) ∧
        CalcGasLimit exampleParams londonConfig (mkHeader 10 100 100) (mkHeader 11 112 0) 0 =
          some r ∧
        low ≤ r ∧ r ≤ high := by
  have hr : gasLimitRange exampleParams londonConfig (mkHeader 10 100 100)
      (mkHeader 11 112 0) = some (5000, 99) := by decide
  have hc : CalcGasLimit exampleParams londonConfig (mkHeader 10 100 100)
      (mkHeader 11 112 0) 0 = some 5000 := by decide
  refine ⟨hr, hc, ?_⟩
  rintro ⟨low, high, r, hr', hc', hlo, hhi⟩
  rw [hr] at hr'
  rw [hc] at hc'
  simp only [Option.some.injEq, Prod.mk.injEq] at hr' hc'
  omega

/-- C2, amended: whenever `gasLimitRange` returns `(low, high)` with
`low <= high`, `CalcGasLimit` returns a value `r` with `low <= r <= high`. -/
theorem CalcGasLimit_in_range (P : ProtocolParams) (config : ChainConfig)
    (parent header : Header) (desiredGasLimit low high : Nat)
    (hr : gasLimitRange P config parent header = some (low, high)) (hle : low ≤ high) :
    ∃ r, CalcGasLimit P config parent header desiredGasLimit = some r ∧
      low ≤ r ∧ r ≤ high := by
  rw [CalcGasLimit_of_range desiredGasLimit hr]
  by_cases h1 : desiredGasLimit < low
  · rw [if_pos h1]
    exact ⟨low, rfl, le_refl low, hle⟩
  · rw [if_neg h1]
    by_cases h2 : desiredGasLimit > high
    · rw [if_pos h2]
      exact ⟨high, rfl, hle, le_refl high⟩
    · rw [if_neg h2]
      exact ⟨desiredGasLimit, rfl, by omega, by omega⟩

/-- Witness for C2: a 30,000,000 parent and a desired value far above. -/
theorem CalcGasLimit_in_range_witness :
    gasLimitRange exampleParams londonConfig (mkHeader 10 100 30000000) (mkHeader 11 112 0) =
        some (29970705, 30029295) ∧
      29970705 ≤ 30029295 ∧
      ∃ r, CalcGasLimit exampleParams londonConfig (mkHeader 10 100 30000000)
          (mkHeader 11 112 0) 60000000 = some r ∧
        29970705 ≤ r ∧ r ≤ 30029295 :=
  ⟨by decide, by decide,
    CalcGasLimit_in_range exampleParams londonConfig (mkHeader 10 100 30000000)
      (mkHeader 11 112 0) 60000000 29970705 30029295 (by decide) (by decide)⟩

/-- C3, counterexample: for a parent with gas limit 100 the value 5000
suggested by `CalcGasLimit` for desired value 0 is rejected by `VerifyGaslimit`. -/
theorem CalcGasLimit_roundtrip_counterexample :
    CalcGasLimit exampleParams londonConfig (mkHeader 10 100 100) (mkHeader 11 112 0) 0 =
        some 5000 ∧
      VerifyGaslimit exampleParams londonConfig (mkHeader 10 100 100)
          (withGasLimit (mkHeader 11 112 0) 5000) =
        some (Error.Errorf invalidGasLimitFormat [100, 5000, 99, 5000]) ∧
      VerifyGaslimit exampleParams londonConfig (mkHeader 10 100 100)
          (withGasLimit (mkHeader 11 112 0) 5000) ≠ some Error.nil := by
  decide

/-- C3, amended: whenever `gasLimitRange` returns `(low, high)` with
`low <= high`, the header obtained by replacing the gas limit with the value
returned by `CalcGasLimit` is accepted by `VerifyGaslimit`. -/
theorem CalcGasLimit_roundtrip (P : ProtocolParams) (config : ChainConfig)
    (parent header : Header) (desiredGasLimit low high : Nat)
    (hr : gasLimitRange P config parent header = some (low, high)) (hle : low ≤ high) :
    ∃ r, CalcGasLimit P config parent header desiredGasLimit = some r ∧
      VerifyGaslimit P config parent (withGasLimit header r) = some Error.nil := by
  have hr' : ∀ r, gasLimitRange P config parent (withGasLimit header r) = some (low, high) :=
    fun r => (gasLimitRange_withGasLimit P config parent header r).trans hr
  have hok : ∀ r, low ≤ r → r ≤ high →
      VerifyGaslimit P config parent (withGasLimit header r) = some Error.nil := by
    intro r hlo hhi
    rw [VerifyGaslimit_of_range (hr' r)]
    have hin : ¬ ((decide ((withGasLimit header r).GasLimit < low) ||
        decide ((withGasLimit header r).GasLimit > high)) = true) := by
      simp only [withGasLimit, Bool.or_eq_true, decide_eq_true_eq]
      omega
    rw [if_neg hin]
  rw [CalcGasLimit_of_range desiredGasLimit hr]
  by_cases h1 : desiredGasLimit < low
  · rw [if_pos h1]
    exact ⟨low, rfl, hok low (le_refl low) hle⟩
  · rw [if_neg h1]
    by_cases h2 : desiredGasLimit > high
    · rw [if_pos h2]
      exact ⟨high, rfl, hok high hle (le_refl high)⟩
    · rw [if_neg h2]
      exact ⟨desiredGasLimit, rfl, hok desiredGasLimit (by omega) (by omega)⟩

/-- Witness for C3: a 30,000,000 parent and a desired value far below. -/
theorem CalcGasLimit_roundtrip_witness :
    gasLimitRange exampleParams londonConfig (mkHeader 10 100 30000000) (mkHeader 11 112 0) =
        some (29970705, 30029295) ∧
      29970705 ≤ 30029295 ∧
      ∃ r, CalcGasLimit exampleParams londonConfig (mkHeader 10 100 30000000)
          (mkHeader 11 112 0) 15000000 = some r ∧
        VerifyGaslimit exampleParams londonConfig (mkHeader 10 100 30000000)
          (withGasLimit (mkHeader 11 112 0) r) = some Error.nil :=
  ⟨by decide, by decide,
    CalcGasLimit_roundtrip exampleParams londonConfig (mkHeader 10 100 30000000)
      (mkHeader 11 112 0) 15000000 29970705 30029295 (by decide) (by decide)⟩

/-! ## The range is not always an interval -/

/-- C4, counterexample: with divisor 1024 (at least 2) and a parent gas limit
of 100 (positive), `gasLimitRange` returns `(5000, 99)`, so `low > high`. -/
theorem gasLimitRange_low_le_high_counterexample :
    2 ≤ boundDivisor exampleParams londonConfig (mkHeader 11 112 0) ∧
      0 < (mkHeader 10 100 100).GasLimit ∧
      gasLimitRange exampleParams londonConfig (mkHeader 10 100 100) (mkHeader 11 112 0) =
        some (5000, 99) ∧
      ¬ (5000 ≤ 99) := by
  decide

/-- C4, amended: when the selected divisor is at least 2, the adjusted base is
at least the divisor, and `base + (base / divisor - 1)` is below `2 ^ 64` and
at least the selected minimum, `gasLimitRange` returns `(low, high)` with
`low <= high`. -/
theorem gasLimitRange_low_le_high (P : ProtocolParams) (config : ChainConfig)
    (parent header : Header)
    (hd : 2 ≤ boundDivisor P config header)
    (hbase : boundDivisor P config header ≤ adjustedBase config parent header)
    (hmin : minGasLimit P config header ≤
      adjustedBase config parent header +
        (adjustedBase config parent header / boundDivisor P config header - 1))
    (hov : adjustedBase config parent header +
        (adjustedBase config parent header / boundDivisor P config header - 1) < uint64Mod) :
    ∃ low high, gasLimitRange P config parent header = some (low, high) ∧ low ≤ high := by
  have hd0 : boundDivisor P config header ≠ 0 := by omega
  have hq1 : 1 ≤ adjustedBase config parent header / boundDivisor P config header :=
    Nat.div_pos hbase (by omega)
  have hqle : adjustedBase config parent header / boundDivisor P config header ≤
      adjustedBase config parent header := Nat.div_le_self _ _
  have hmd : maxDiff P config parent header =
      adjustedBase config parent header / boundDivisor P config header - 1 := by
    unfold maxDiff
    exact sub64_of_le hq1 (by omega)
  refine ⟨_, _, gasLimitRange_of_ne_zero P config parent header hd0, ?_⟩
  rw [hmd, add64_of_lt hov, sub64_of_le (by omega) (by omega)]
  omega

/-- Witness for C4: a 30,000,000 parent with divisor 1024 and minimum 5000. -/
theorem gasLimitRange_low_le_high_witness :
    2 ≤ boundDivisor exampleParams londonConfig (mkHeader 11 112 0) ∧
      boundDivisor exampleParams londonConfig (mkHeader 11 112 0) ≤
        adjustedBase londonConfig (mkHeader 10 100 30000000) (mkHeader 11 112 0) ∧
      ∃ low high,
        gasLimitRange exampleParams londonConfig (mkHeader 10 100 30000000)
          (mkHeader 11 112 0) = some (low, high) ∧ low ≤ high :=
  ⟨by decide, by decide,
    gasLimitRange_low_le_high exampleParams londonConfig (mkHeader 10 100 30000000)
      (mkHeader 11 112 0) (by decide) (by decide) (by decide) (by decide)⟩

/-! ## The fork adjustments and the constant selection -/

/-- C5: the value that `gasLimitRange` carries into the EIP-7782 step is
`parent.GasLimit * ElasticityMultiplier` modulo `2 ^ 64` when London is
inactive at the parent and active at the header, and `parent.GasLimit` in the
three other cases. -/
theorem gasLimitRange_london_base (P : ProtocolParams) (config : ChainConfig)
    (parent header : Header) :
    londonBase config parent header =
        forkABase (config.IsLondon parent.Number) (config.IsLondon header.Number)
          parent.GasLimit config.ElasticityMultiplier ∧
      gasLimitRange P config parent header =
        rangeOfBase P config header
          (eip7782Base config parent header
            (forkABase (config.IsLondon parent.Number) (config.IsLondon header.Number)
              parent.GasLimit config.ElasticityMultiplier)) := by
  have hl : londonBase config parent header =
      forkABase (config.IsLondon parent.Number) (config.IsLondon header.Number)
        parent.GasLimit config.ElasticityMultiplier := by
    unfold londonBase forkABase
    cases config.IsLondon parent.Number <;> cases config.IsLondon header.Number <;> rfl
  refine ⟨hl, ?_⟩
  rw [gasLimitRange_eq_rangeOfBase, adjustedBase, hl]

/-- C6: the value that enters the range formula is the London-adjusted value
halved (integer division) when EIP-7782 is inactive at the parent and active at
the header, and the London-adjusted value itself in the three other cases,
for every behaviour of the London predicate. -/
theorem gasLimitRange_eip7782_base (P : ProtocolParams) (config : ChainConfig)
    (parent header : Header) :
    adjustedBase config parent header =
        forkBBase (config.IsEIP7782 parent.Number parent.Time)
          (config.IsEIP7782 header.Number header.Time)
          (forkABase (config.IsLondon parent.Number) (config.IsLondon header.Number)
            parent.GasLimit config.ElasticityMultiplier) ∧
      gasLimitRange P config parent header =
        rangeOfBase P config header
          (forkBBase (config.IsEIP7782 parent.Number parent.Time)
            (config.IsEIP7782 header.Number header.Time)
            (forkABase (config.IsLondon parent.Number) (config.IsLondon header.Number)
              parent.GasLimit config.ElasticityMultiplier)) := by
  have ha : adjustedBase config parent header =
      forkBBase (config.IsEIP7782 parent.Number parent.Time)
        (config.IsEIP7782 header.Number header.Time)
        (forkABase (config.IsLondon parent.Number) (config.IsLondon header.Number)
          parent.GasLimit config.ElasticityMultiplier) := by
    unfold adjustedBase eip7782Base londonBase forkBBase forkABase
    cases config.IsEIP7782 parent.Number parent.Time <;>
      cases config.IsEIP7782 header.Number header.Time <;>
      cases config.IsLondon parent.Number <;>
      cases config.IsLondon header.Number <;> rfl
  refine ⟨ha, ?_⟩
  rw [gasLimitRange_eq_rangeOfBase, ha]

/-- C7: with `(divisor, minimum)` the EIP-7782 pair when EIP-7782 is active
at the header and the ordinary pair otherwise, whatever the predicate returns
at the parent, and with a non-zero divisor, `gasLimitRange` returns
`low = max (base - maxDiff) minimum` and `high = base + maxDiff` where
`maxDiff = base / divisor - 1`, all in `uint64` arithmetic. -/
theorem gasLimitRange_selected_constants (P : ProtocolParams) (config : ChainConfig)
    (parent header : Header)
    (hd : (selectedConstants P (config.IsEIP7782 header.Number header.Time)).1 ≠ 0) :
    gasLimitRange P config parent header =
      some (max
          (sub64 (adjustedBase config parent header)
            (sub64 (adjustedBase config parent header /
              (selectedConstants P (config.IsEIP7782 header.Number header.Time)).1) 1))
          (selectedConstants P (config.IsEIP7782 header.Number header.Time)).2,
        add64 (adjustedBase config parent header)
          (sub64 (adjustedBase config parent header /
            (selectedConstants P (config.IsEIP7782 header.Number header.Time)).1) 1)) := by
  have hdiv : boundDivisor P config header =
      (selectedConstants P (config.IsEIP7782 header.Number header.Time)).1 := by
    unfold boundDivisor selectedConstants
    cases config.IsEIP7782 header.Number header.Time <;> rfl
  have hmin : minGasLimit P config header =
      (selectedConstants P (config.IsEIP7782 header.Number header.Time)).2 := by
    unfold minGasLimit selectedConstants
    cases config.IsEIP7782 header.Number header.Time <;> rfl
  rw [gasLimitRange_of_ne_zero P config parent header (by rw [hdiv]; exact hd)]
  unfold maxDiff
  rw [hdiv, hmin]

/-- Witness for C7: the header is the first block with EIP-7782 active, so the
EIP-7782 pair `(2048, 2500)` is used although the parent is before the fork. -/
theorem gasLimitRange_selected_constants_witness :
    (selectedConstants exampleParams
        (forkConfig.IsEIP7782 (mkHeader 11 1000 0).Number (mkHeader 11 1000 0).Time)).1 ≠ 0 ∧
      forkConfig.IsEIP7782 (mkHeader 10 988 30000000).Number
        (mkHeader 10 988 30000000).Time = false ∧
      selectedConstants exampleParams
        (forkConfig.IsEIP7782 (mkHeader 11 1000 0).Number (mkHeader 11 1000 0).Time) =
        (2048, 2500) ∧
      gasLimitRange exampleParams forkConfig (mkHeader 10 988 30000000) (mkHeader 11 1000 0) =
        some (14992677, 15007323) ∧
      gasLimitRange exampleParams forkConfig (mkHeader 10 988 30000000) (mkHeader 11 1000 0) =
        some (max
            (sub64 (adjustedBase forkConfig (mkHeader 10 988 30000000) (mkHeader 11 1000 0))
              (sub64 (adjustedBase forkConfig (mkHeader 10 988 30000000) (mkHeader 11 1000 0) /
                (selectedConstants exampleParams
                  (forkConfig.IsEIP7782 (mkHeader 11 1000 0).Number
                    (mkHeader 11 1000 0).Time)).1) 1))
            (selectedConstants exampleParams
              (forkConfig.IsEIP7782 (mkHeader 11 1000 0).Number (mkHeader 11 1000 0).Time)).2,
          add64 (adjustedBase forkConfig (mkHeader 10 988 30000000) (mkHeader 11 1000 0))
            (sub64 (adjustedBase forkConfig (mkHeader 10 988 30000000) (mkHeader 11 1000 0) /
              (selectedConstants exampleParams
                (forkConfig.IsEIP7782 (mkHeader 11 1000 0).Number
                  (mkHeader 11 1000 0).Time)).1) 1)) :=
  ⟨by decide, by decide, by decide, by decide,
    gasLimitRange_selected_constants exampleParams forkConfig (mkHeader 10 988 30000000)
      (mkHeader 11 1000 0) (by decide)⟩

/-! ## The 30,000,000 scenario -/

/-- C8, counterexample: with parent gas limit 30,000,000, divisor 1024,
minimum 5000, EIP-7782 inactive and no fork transition, `maxDiff` is 29295 and
the range is `(29970705, 30029295)`, not 29296 and `(29970704, 30029296)`. -/
theorem gasLimitRange_scenario_counterexample :
    exampleParams.GasLimitBoundDivisor = 1024 ∧ exampleParams.MinGasLimit = 5000 ∧
      londonConfig.IsEIP7782 (mkHeader 11 112 0).Number (mkHeader 11 112 0).Time = false ∧
      londonConfig.IsLondon (mkHeader 10 100 30000000).Number = true ∧
      maxDiff exampleParams londonConfig (mkHeader 10 100 30000000) (mkHeader 11 112 0) ≠
        29296 ∧
      gasLimitRange exampleParams londonConfig (mkHeader 10 100 30000000) (mkHeader 11 112 0) ≠
        some (29970704, 30029296) := by
  decide

/-- C8, amended: with parent gas limit 30,000,000, divisor 1024, minimum 5000,
EIP-7782 inactive at the header and no London transition, `maxDiff` is
`30000000 / 1024 - 1 = 29295` and `gasLimitRange` returns
`(29970705, 30029295)`. -/
theorem gasLimitRange_scenario (P : ProtocolParams) (config : ChainConfig)
    (parent header : Header)
    (hdiv : P.GasLimitBoundDivisor = 1024) (hmin : P.MinGasLimit = 5000)
    (hgas : parent.GasLimit = 30000000)
    (hB : config.IsEIP7782 header.Number header.Time = false)
    (hA : config.IsLondon parent.Number = true ∨ config.IsLondon header.Number = false) :
    maxDiff P config parent header = 29295 ∧
      gasLimitRange P config parent header = some (29970705, 30029295) := by
  have hl : londonBase config parent header = 30000000 := by
    unfold londonBase
    rcases hA with hA | hA <;> simp [hA, hgas]
  have hb : adjustedBase config parent header = 30000000 := by
    unfold adjustedBase eip7782Base
    simp [hB, hl]
  have hd : boundDivisor P config header = 1024 := by
    unfold boundDivisor
    simp [hB, hdiv]
  have hm : minGasLimit P config header = 5000 := by
    unfold minGasLimit
    simp [hB, hmin]
  have hmd : maxDiff P config parent header = 29295 := by
    unfold maxDiff
    rw [hb, hd]
    decide
  refine ⟨hmd, ?_⟩
  rw [gasLimitRange_of_ne_zero P config parent header (by rw [hd]; decide), hmd, hb, hm]
  decide

/-- Witness for C8: both headers are before London and before EIP-7782. -/
theorem gasLimitRange_scenario_witness :
    forkConfig.IsEIP7782 (mkHeader 3 36 0).Number (mkHeader 3 36 0).Time = false ∧
      forkConfig.IsLondon (mkHeader 3 36 0).Number = false ∧
      maxDiff exampleParams forkConfig (mkHeader 2 24 30000000) (mkHeader 3 36 0) = 29295 ∧
      gasLimitRange exampleParams forkConfig (mkHeader 2 24 30000000) (mkHeader 3 36 0) =
        some (29970705, 30029295) :=
  ⟨by decide, by decide,
    gasLimitRange_scenario exampleParams forkConfig (mkHeader 2 24 30000000) (mkHeader 3 36 0)
      rfl rfl rfl (by decide) (Or.inr (by decide))⟩

/-! ## Inclusive bounds -/

/-- C9, counterexample: for a parent with gas limit 100 the range is
`(5000, 99)`; a header with gas limit `low = 5000` and a header with gas limit
`high = 99` are both rejected. -/
theorem VerifyGaslimit_bounds_counterexample :
    gasLimitRange exampleParams londonConfig (mkHeader 10 100 100) (mkHeader 11 112 0) =
        some (5000, 99) ∧
      VerifyGaslimit exampleParams londonConfig (mkHeader 10 100 100)
          (withGasLimit (mkHeader 11 112 0) 5000) =
        some (Error.Errorf invalidGasLimitFormat [100, 5000, 99, 5000]) ∧
      VerifyGaslimit exampleParams londonConfig (mkHeader 10 100 100)
          (withGasLimit (mkHeader 11 112 0) 99) =
        some (Error.Errorf invalidGasLimitFormat [100, 5000, 99, 99]) := by
  decide

/-- C9, amended: whenever `gasLimitRange` returns `(low, high)` with
`low <= high`, the header with gas limit `low` and the header with gas limit
`high` are both accepted by `VerifyGaslimit`. -/
theorem VerifyGaslimit_bounds_inclusive (P : ProtocolParams) (config : ChainConfig)
    (parent header : Header) (low high : Nat)
    (hr : gasLimitRange P config parent header = some (low, high)) (hle : low ≤ high) :
    VerifyGaslimit P config parent (withGasLimit header low) = some Error.nil ∧
      VerifyGaslimit P config parent (withGasLimit header high) = some Error.nil := by
  have hok : ∀ g, low ≤ g → g ≤ high →
      VerifyGaslimit P config parent (withGasLimit header g) = some Error.nil := by
    intro g hlo hhi
    rw [VerifyGaslimit_of_range ((gasLimitRange_withGasLimit P config parent header g).trans hr)]
    have hin : ¬ ((decide ((withGasLimit header g).GasLimit < low) ||
        decide ((withGasLimit header g).GasLimit > high)) = true) := by
      simp only [withGasLimit, Bool.or_eq_true, decide_eq_true_eq]
      omega
    rw [if_neg hin]
  exact ⟨hok low (le_refl low) hle, hok high hle (le_refl high)⟩

/-- Witness for C9: the two ends of the range of a 30,000,000 parent. -/
theorem VerifyGaslimit_bounds_inclusive_witness :
    gasLimitRange exampleParams londonConfig (mkHeader 10 100 30000000) (mkHeader 11 112 7) =
        some (29970705, 30029295) ∧
      29970705 ≤ 30029295 ∧
      VerifyGaslimit exampleParams londonConfig (mkHeader 10 100 30000000)
          (withGasLimit (mkHeader 11 112 7) 29970705) = some Error.nil ∧
      VerifyGaslimit exampleParams londonConfig (mkHeader 10 100 30000000)
          (withGasLimit (mkHeader 11 112 7) 30029295) = some Error.nil :=
  ⟨by decide, by decide,
    VerifyGaslimit_bounds_inclusive exampleParams londonConfig (mkHeader 10 100 30000000)
      (mkHeader 11 112 7) 29970705 30029295 (by decide) (by decide)⟩

/-! ## The error value -/

/-- C10: an error returned by `VerifyGaslimit` is built from exactly four
arguments, in order: the gas limit stored in the parent header, the `low` and
`high` returned by `gasLimitRange` for the same inputs, and the header's gas
limit. -/
theorem VerifyGaslimit_error_args (P : ProtocolParams) (config : ChainConfig)
    (parent header : Header) (e : Error)
    (hv : VerifyGaslimit P config parent header = some e) (hne : e ≠ Error.nil) :
    ∃ low high, gasLimitRange P config parent header = some (low, high) ∧
      e = Error.Errorf invalidGasLimitFormat
        [parent.GasLimit, low, high, header.GasLimit] := by
  cases hr : gasLimitRange P config parent header with
  | none =>
    unfold VerifyGaslimit at hv
    rw [hr] at hv
    exact Option.noConfusion hv
  | some lh =>
    obtain ⟨low, high⟩ := lh
    refine ⟨low, high, rfl, ?_⟩
    rw [VerifyGaslimit_of_range hr] at hv
    split at hv
    · exact (Option.some.inj hv).symm
    · exact absurd (Option.some.inj hv).symm hne

/-- Witness for C10: at the London transition block the parent gas limit
15,000,000 is doubled to the base 30,000,000; the rejected header reports the
stored 15,000,000, not the base. -/
theorem VerifyGaslimit_error_args_witness :
    VerifyGaslimit exampleParams forkConfig (mkHeader 4 48 15000000)
        (mkHeader 5 60 15000000) =
      some (Error.Errorf invalidGasLimitFormat [15000000, 29970705, 30029295, 15000000]) ∧
    adjustedBase forkConfig (mkHeader 4 48 15000000) (mkHeader 5 60 15000000) = 30000000 ∧
    ∃ low high,
      gasLimitRange exampleParams forkConfig (mkHeader 4 48 15000000)
        (mkHeader 5 60 15000000) = some (low, high) ∧
      Error.Errorf invalidGasLimitFormat [15000000, 29970705, 30029295, 15000000] =
        Error.Errorf invalidGasLimitFormat
          [(mkHeader 4 48 15000000).GasLimit, low, high, (mkHeader 5 60 15000000).GasLimit] :=
  ⟨by decide, by decide,
    VerifyGaslimit_error_args exampleParams forkConfig (mkHeader 4 48 15000000)
      (mkHeader 5 60 15000000) _ (by decide) (by decide)⟩

/-! ## Further structure of the range -/

theorem gasLimitRange_congr_header (P : ProtocolParams) (config : ChainConfig)
    (parent header₁ header₂ : Header) (hnum : header₁.Number = header₂.Number)
    (htime : header₁.Time = header₂.Time) :
    gasLimitRange P config parent header₁ = gasLimitRange P config parent header₂ := by
  unfold gasLimitRange
  rw [hnum, htime]

theorem mul64_lt (a b : Nat) : mul64 a b < uint64Mod := by
  unfold mul64
  exact Nat.mod_lt _ (by rw [uint64Mod_eq]; omega)

theorem adjustedBase_lt (config : ChainConfig) (parent header : Header)
    (hp : parent.GasLimit < uint64Mod) : adjustedBase config parent header < uint64Mod := by
  have hl : londonBase config parent header < uint64Mod := by
    unfold londonBase
    split
    · exact mul64_lt _ _
    · exact hp
  unfold adjustedBase eip7782Base
  split
  · exact lt_of_le_of_lt (Nat.div_le_self _ _) hl
  · exact hl

theorem gasLimitRange_of_base_ge (P : ProtocolParams) (config : ChainConfig)
    (parent header : Header) (hd : boundDivisor P config header ≠ 0)
    (hbase : boundDivisor P config header ≤ adjustedBase config parent header)
    (hov : adjustedBase config parent header +
        (adjustedBase config parent header / boundDivisor P config header - 1) < uint64Mod) :
    gasLimitRange P config parent header =
      some (max
          (adjustedBase config parent header -
            (adjustedBase config parent header / boundDivisor P config header - 1))
          (minGasLimit P config header),
        adjustedBase config parent header +
          (adjustedBase config parent header / boundDivisor P config header - 1)) := by
  have hq1 : 1 ≤ adjustedBase config parent header / boundDivisor P config header :=
    Nat.div_pos hbase (by omega)
  have hqle : adjustedBase config parent header / boundDivisor P config header ≤
      adjustedBase config parent header := Nat.div_le_self _ _
  have hmd : maxDiff P config parent header =
      adjustedBase config parent header / boundDivisor P config header - 1 := by
    unfold maxDiff
    exact sub64_of_le hq1 (by omega)
  rw [gasLimitRange_of_ne_zero P config parent header hd, hmd, add64_of_lt hov,
    sub64_of_le (by omega) (by omega)]

/-! ## Clamping leaves values in range unchanged -/

/-- C11: when `gasLimitRange` returns `(low, high)` and
`low <= desiredGasLimit <= high`, `CalcGasLimit` returns `desiredGasLimit`
unchanged. -/
theorem CalcGasLimit_of_in_range (P : ProtocolParams) (config : ChainConfig)
    (parent header : Header) (desiredGasLimit low high : Nat)
    (hr : gasLimitRange P config parent header = some (low, high))
    (hlo : low ≤ desiredGasLimit) (hhi : desiredGasLimit ≤ high) :
    CalcGasLimit P config parent header desiredGasLimit = some desiredGasLimit := by
  rw [CalcGasLimit_of_range desiredGasLimit hr, if_neg (by omega), if_neg (by omega)]

/-- Witness for C11: 30,010,000 lies in the range of a 30,000,000 parent. -/
theorem CalcGasLimit_of_in_range_witness :
    gasLimitRange exampleParams londonConfig (mkHeader 10 100 30000000) (mkHeader 11 112 0) =
        some (29970705, 30029295) ∧
      29970705 ≤ 30010000 ∧ 30010000 ≤ 30029295 ∧
      CalcGasLimit exampleParams londonConfig (mkHeader 10 100 30000000) (mkHeader 11 112 0)
        30010000 = some 30010000 :=
  ⟨by decide, by decide, by decide,
    CalcGasLimit_of_in_range exampleParams londonConfig (mkHeader 10 100 30000000)
      (mkHeader 11 112 0) 30010000 29970705 30029295 (by decide) (by decide) (by decide)⟩

/-- C12: for two headers that agree on `Number` and `Time`, whatever their gas
limits, `gasLimitRange` returns the same range and `CalcGasLimit` returns the
same value. -/
theorem CalcGasLimit_independent_of_header_gasLimit (P : ProtocolParams)
    (config : ChainConfig) (parent header₁ header₂ : Header) (desiredGasLimit : Nat)
    (hnum : header₁.Number = header₂.Number) (htime : header₁.Time = header₂.Time) :
    gasLimitRange P config parent header₁ = gasLimitRange P config parent header₂ ∧
      CalcGasLimit P config parent header₁ desiredGasLimit =
        CalcGasLimit P config parent header₂ desiredGasLimit := by
  have hr := gasLimitRange_congr_header P config parent header₁ header₂ hnum htime
  refine ⟨hr, ?_⟩
  unfold CalcGasLimit
  rw [hr]

/-- Witness for C12: two headers at block 11 and time 112 with gas limits 0 and
45,000,000. -/
theorem CalcGasLimit_independent_of_header_gasLimit_witness :
    (mkHeader 11 112 0).Number = (mkHeader 11 112 45000000).Number ∧
      (mkHeader 11 112 0).Time = (mkHeader 11 112 45000000).Time ∧
      (mkHeader 11 112 0).GasLimit ≠ (mkHeader 11 112 45000000).GasLimit ∧
      gasLimitRange exampleParams londonConfig (mkHeader 10 100 30000000) (mkHeader 11 112 0) =
        gasLimitRange exampleParams londonConfig (mkHeader 10 100 30000000)
          (mkHeader 11 112 45000000) ∧
      CalcGasLimit exampleParams londonConfig (mkHeader 10 100 30000000) (mkHeader 11 112 0)
          60000000 =
        CalcGasLimit exampleParams londonConfig (mkHeader 10 100 30000000)
          (mkHeader 11 112 45000000) 60000000 :=
  ⟨rfl, rfl, by decide,
    CalcGasLimit_independent_of_header_gasLimit exampleParams londonConfig
      (mkHeader 10 100 30000000) (mkHeader 11 112 0) (mkHeader 11 112 45000000) 60000000
      rfl rfl⟩

/-! ## The minimum gas limit -/

/-- C13: when the selected divisor is not zero, `gasLimitRange` returns a pair
whose `low` is at least the minimum selected for the header, and every header
accepted by `VerifyGaslimit` has a gas limit at least that minimum. -/
theorem gasLimitRange_low_ge_min (P : ProtocolParams) (config : ChainConfig)
    (parent header : Header) (hd : boundDivisor P config header ≠ 0) :
    ∃ low high, gasLimitRange P config parent header = some (low, high) ∧
      (if config.IsEIP7782 header.Number header.Time then P.MinGasLimitEIP7782
        else P.MinGasLimit) ≤ low ∧
      (VerifyGaslimit P config parent header = some Error.nil →
        (if config.IsEIP7782 header.Number header.Time then P.MinGasLimitEIP7782
          else P.MinGasLimit) ≤ header.GasLimit) := by
  have hr := gasLimitRange_of_ne_zero P config parent header hd
  have hlow : minGasLimit P config header ≤
      max (sub64 (adjustedBase config parent header) (maxDiff P config parent header))
        (minGasLimit P config header) := le_max_right _ _
  refine ⟨_, _, hr, hlow, ?_⟩
  intro hv
  rw [VerifyGaslimit_of_range hr] at hv
  split at hv
  · exact absurd (Option.some.inj hv) (by intro h; cases h)
  · rename_i hout
    simp only [Bool.or_eq_true, decide_eq_true_eq, not_or, not_lt] at hout
    exact le_trans hlow hout.1

/-- Witness for C13: a parent of 6000 with minimum 5000; the accepted
header has gas limit 5996, the low end of the range. -/
theorem gasLimitRange_low_ge_min_witness :
    boundDivisor exampleParams londonConfig (mkHeader 11 112 5996) ≠ 0 ∧
      VerifyGaslimit exampleParams londonConfig (mkHeader 10 100 6000) (mkHeader 11 112 5996) =
        some Error.nil ∧
      ∃ low high,
        gasLimitRange exampleParams londonConfig (mkHeader 10 100 6000)
          (mkHeader 11 112 5996) = some (low, high) ∧
        (if londonConfig.IsEIP7782 (mkHeader 11 112 5996).Number (mkHeader 11 112 5996).Time
          then exampleParams.MinGasLimitEIP7782 else exampleParams.MinGasLimit) ≤ low ∧
        (VerifyGaslimit exampleParams londonConfig (mkHeader 10 100 6000)
            (mkHeader 11 112 5996) = some Error.nil →
          (if londonConfig.IsEIP7782 (mkHeader 11 112 5996).Number
              (mkHeader 11 112 5996).Time
            then exampleParams.MinGasLimitEIP7782 else exampleParams.MinGasLimit) ≤
            (mkHeader 11 112 5996).GasLimit) :=
  ⟨by decide, by decide,
    gasLimitRange_low_ge_min exampleParams londonConfig (mkHeader 10 100 6000)
      (mkHeader 11 112 5996) (by decide)⟩

/-! ## Fork transitions on concrete inputs -/

theorem gasLimitRange_of_values (P : ProtocolParams) (config : ChainConfig)
    (parent header : Header) {base divisor minimum : Nat}
    (hb : adjustedBase config parent header = base)
    (hd : boundDivisor P config header = divisor)
    (hm : minGasLimit P config header = minimum) :
    gasLimitRange P config parent header = rangeFormula divisor minimum base := by
  rw [gasLimitRange_eq_rangeOfBase]
  unfold rangeOfBase
  rw [hb, hd, hm]

/-- C14, counterexample: for a parent with gas limit 30,000,000 at the London
transition block (multiplier 2, divisor 1024, minimum 5000, EIP-7782 inactive)
the range is `(59941408, 60058592)`, while without a transition it is
`(29970705, 30029295)`; neither bound is exactly doubled. -/
theorem gasLimitRange_london_doubling_counterexample :
    forkConfig.IsLondon (mkHeader 4 48 30000000).Number = false ∧
      forkConfig.IsLondon (mkHeader 5 60 0).Number = true ∧
      forkConfig.IsEIP7782 (mkHeader 4 48 30000000).Number (mkHeader 4 48 30000000).Time =
        false ∧
      forkConfig.IsEIP7782 (mkHeader 5 60 0).Number (mkHeader 5 60 0).Time = false ∧
      forkConfig.ElasticityMultiplier = 2 ∧
      gasLimitRange exampleParams forkConfig (mkHeader 4 48 30000000) (mkHeader 5 60 0) =
        some (59941408, 60058592) ∧
      gasLimitRange exampleParams londonConfig (mkHeader 4 48 30000000) (mkHeader 5 60 0) =
        some (29970705, 30029295) ∧
      59941408 ≠ 2 * 29970705 ∧ 60058592 ≠ 2 * 30029295 := by
  decide

/-- C14, amended: with parent gas limit 30,000,000, divisor 1024, minimum 5000,
multiplier 2, London inactive at the parent and active at the header and
EIP-7782 inactive at the header, the base is 60,000,000 and `gasLimitRange`
returns `(59941408, 60058592)`; for the same parent and header under a
configuration without a London transition it returns `(29970705, 30029295)`,
so the transition `low` is twice the other `low` minus 2 and the transition
`high` is twice the other `high` plus 2. -/
theorem gasLimitRange_london_doubling (P : ProtocolParams) (config config₀ : ChainConfig)
    (parent header : Header)
    (hdiv : P.GasLimitBoundDivisor = 1024) (hmin : P.MinGasLimit = 5000)
    (hgas : parent.GasLimit = 30000000) (hmul : config.ElasticityMultiplier = 2)
    (hAp : config.IsLondon parent.Number = false) (hAh : config.IsLondon header.Number = true)
    (hB : config.IsEIP7782 header.Number header.Time = false)
    (hA₀ : config₀.IsLondon parent.Number = true ∨ config₀.IsLondon header.Number = false)
    (hB₀ : config₀.IsEIP7782 header.Number header.Time = false) :
    adjustedBase config parent header = 60000000 ∧
      ∃ low high low₀ high₀,
        gasLimitRange P config parent header = some (low, high) ∧
        gasLimitRange P config₀ parent header = some (low₀, high₀) ∧
        low = 59941408 ∧ high = 60058592 ∧ low₀ = 29970705 ∧ high₀ = 30029295 ∧
        low + 2 = 2 * low₀ ∧ high = 2 * high₀ + 2 := by
  have hb : adjustedBase config parent header = 60000000 := by
    unfold adjustedBase eip7782Base londonBase
    simp only [hAp, hAh, hB, hgas, hmul, Bool.and_false, Bool.not_false, Bool.and_self,
      Bool.false_eq_true, if_false, if_true]
    decide
  have hb₀ : adjustedBase config₀ parent header = 30000000 := by
    unfold adjustedBase eip7782Base londonBase
    rcases hA₀ with hA₀ | hA₀ <;> simp [hA₀, hB₀, hgas]
  have hd : boundDivisor P config header = 1024 := by
    unfold boundDivisor
    simp [hB, hdiv]
  have hm : minGasLimit P config header = 5000 := by
    unfold minGasLimit
    simp [hB, hmin]
  have hd₀ : boundDivisor P config₀ header = 1024 := by
    unfold boundDivisor
    simp [hB₀, hdiv]
  have hm₀ : minGasLimit P config₀ header = 5000 := by
    unfold minGasLimit
    simp [hB₀, hmin]
  refine ⟨hb, 59941408, 60058592, 29970705, 30029295, ?_, ?_, rfl, rfl, rfl, rfl, rfl, rfl⟩
  · rw [gasLimitRange_of_values P config parent header hb hd hm]
    decide
  · rw [gasLimitRange_of_values P config₀ parent header hb₀ hd₀ hm₀]
    decide

/-- Witness for C14: the first London block of `forkConfig`, compared with a
configuration where London is active everywhere. -/
theorem gasLimitRange_london_doubling_witness :
    forkConfig.IsLondon (mkHeader 4 48 30000000).Number = false ∧
      forkConfig.IsLondon (mkHeader 5 60 0).Number = true ∧
      adjustedBase forkConfig (mkHeader 4 48 30000000) (mkHeader 5 60 0) = 60000000 ∧
      ∃ low high low₀ high₀,
        gasLimitRange exampleParams forkConfig (mkHeader 4 48 30000000) (mkHeader 5 60 0) =
          some (low, high) ∧
        gasLimitRange exampleParams londonConfig (mkHeader 4 48 30000000) (mkHeader 5 60 0) =
          some (low₀, high₀) ∧
        low = 59941408 ∧ high = 60058592 ∧ low₀ = 29970705 ∧ high₀ = 30029295 ∧
        low + 2 = 2 * low₀ ∧ high = 2 * high₀ + 2 :=
  ⟨by decide, by decide,
    gasLimitRange_london_doubling exampleParams forkConfig londonConfig
      (mkHeader 4 48 30000000) (mkHeader 5 60 0) rfl rfl rfl rfl (by decide) (by decide)
      (by decide) (Or.inl (by decide)) (by decide)⟩

/-- C15: when London and EIP-7782 are both inactive at the parent and both
active at the header, the value entering the range formula is
`(parent.GasLimit * ElasticityMultiplier mod 2 ^ 64) / 2`: the multiplication
is applied first and the integer division second. -/
theorem gasLimitRange_both_transitions (P : ProtocolParams) (config : ChainConfig)
    (parent header : Header)
    (hAp : config.IsLondon parent.Number = false) (hAh : config.IsLondon header.Number = true)
    (hBp : config.IsEIP7782 parent.Number parent.Time = false)
    (hBh : config.IsEIP7782 header.Number header.Time = true) :
    adjustedBase config parent header =
        mul64 parent.GasLimit config.ElasticityMultiplier / 2 ∧
      gasLimitRange P config parent header =
        rangeOfBase P config header
          (mul64 parent.GasLimit config.ElasticityMultiplier / 2) := by
  have hb : adjustedBase config parent header =
      mul64 parent.GasLimit config.ElasticityMultiplier / 2 := by
    unfold adjustedBase eip7782Base londonBase
    simp [hAp, hAh, hBp, hBh]
  refine ⟨hb, ?_⟩
  rw [gasLimitRange_eq_rangeOfBase, hb]

/-- Witness for C15: an odd parent gas limit 30,000,001 with multiplier 2,
where multiplying first gives the base 30,000,001 and dividing first would
give 30,000,000. -/
theorem gasLimitRange_both_transitions_witness :
    mul64 ((mkHeader 4 990 30000001).GasLimit / 2) forkConfig.ElasticityMultiplier =
        30000000 ∧
      mul64 (mkHeader 4 990 30000001).GasLimit forkConfig.ElasticityMultiplier / 2 =
        30000001 ∧
      gasLimitRange exampleParams forkConfig (mkHeader 4 990 30000001) (mkHeader 5 1000 0) =
        some (29985354, 30014648) ∧
      adjustedBase forkConfig (mkHeader 4 990 30000001) (mkHeader 5 1000 0) =
        mul64 (mkHeader 4 990 30000001).GasLimit forkConfig.ElasticityMultiplier / 2 ∧
      gasLimitRange exampleParams forkConfig (mkHeader 4 990 30000001) (mkHeader 5 1000 0) =
        rangeOfBase exampleParams forkConfig (mkHeader 5 1000 0)
          (mul64 (mkHeader 4 990 30000001).GasLimit forkConfig.ElasticityMultiplier / 2) :=
  ⟨by decide, by decide, by decide,
    gasLimitRange_both_transitions exampleParams forkConfig (mkHeader 4 990 30000001)
      (mkHeader 5 1000 0) (by decide) (by decide) (by decide) (by decide)⟩

/-! ## Wraparound below the divisor -/

/-- C16: when the adjusted base is smaller than the selected divisor, `maxDiff`
wraps to `2 ^ 64 - 1` and `gasLimitRange` returns `high = base - 1` and
`low = max (base + 1) minimum`, both operations wrapping modulo `2 ^ 64`; in
particular `low` is the minimum whenever `base + 1 <= minimum`. -/
theorem gasLimitRange_wraparound (P : ProtocolParams) (config : ChainConfig)
    (parent header : Header)
    (hlt : adjustedBase config parent header < boundDivisor P config header) :
    maxDiff P config parent header = uint64Mod - 1 ∧
      gasLimitRange P config parent header =
        some (max (add64 (adjustedBase config parent header) 1) (minGasLimit P config header),
          sub64 (adjustedBase config parent header) 1) ∧
      (adjustedBase config parent header + 1 ≤ minGasLimit P config header →
        gasLimitRange P config parent header =
          some (minGasLimit P config header, sub64 (adjustedBase config parent header) 1)) := by
  have hmd : maxDiff P config parent header = uint64Mod - 1 := by
    unfold maxDiff
    rw [Nat.div_eq_of_lt hlt]
    decide
  have hlow : sub64 (adjustedBase config parent header) (uint64Mod - 1) =
      add64 (adjustedBase config parent header) 1 := by
    unfold sub64 add64
    rw [uint64Mod_eq]
  have hhigh : add64 (adjustedBase config parent header) (uint64Mod - 1) =
      sub64 (adjustedBase config parent header) 1 := by
    unfold sub64 add64
    rw [uint64Mod_eq]
  have hr : gasLimitRange P config parent header =
      some (max (add64 (adjustedBase config parent header) 1) (minGasLimit P config header),
        sub64 (adjustedBase config parent header) 1) := by
    rw [gasLimitRange_of_ne_zero P config parent header (by omega), hmd, hlow, hhigh]
  refine ⟨hmd, hr, ?_⟩
  intro hle
  have hadd : add64 (adjustedBase config parent header) 1 ≤ minGasLimit P config header := by
    unfold add64
    exact le_trans (Nat.mod_le _ _) hle
  rw [hr, max_eq_right hadd]

/-- Witness for C16: a parent of 100 with divisor 1024 and minimum 5000 gives
the range `(5000, 99)`. -/
theorem gasLimitRange_wraparound_witness :
    adjustedBase londonConfig (mkHeader 10 100 100) (mkHeader 11 112 0) <
        boundDivisor exampleParams londonConfig (mkHeader 11 112 0) ∧
      gasLimitRange exampleParams londonConfig (mkHeader 10 100 100) (mkHeader 11 112 0) =
        some (5000, 99) ∧
      maxDiff exampleParams londonConfig (mkHeader 10 100 100) (mkHeader 11 112 0) =
        uint64Mod - 1 ∧
      gasLimitRange exampleParams londonConfig (mkHeader 10 100 100) (mkHeader 11 112 0) =
        some (max (add64 (adjustedBase londonConfig (mkHeader 10 100 100)
              (mkHeader 11 112 0)) 1)
            (minGasLimit exampleParams londonConfig (mkHeader 11 112 0)),
          sub64 (adjustedBase londonConfig (mkHeader 10 100 100) (mkHeader 11 112 0)) 1) ∧
      (adjustedBase londonConfig (mkHeader 10 100 100) (mkHeader 11 112 0) + 1 ≤
          minGasLimit exampleParams londonConfig (mkHeader 11 112 0) →
        gasLimitRange exampleParams londonConfig (mkHeader 10 100 100) (mkHeader 11 112 0) =
          some (minGasLimit exampleParams londonConfig (mkHeader 11 112 0),
            sub64 (adjustedBase londonConfig (mkHeader 10 100 100) (mkHeader 11 112 0)) 1)) :=
  ⟨by decide, by decide,
    gasLimitRange_wraparound exampleParams londonConfig (mkHeader 10 100 100)
      (mkHeader 11 112 0) (by decide)⟩

/-! ## Moving toward the target -/

/-- C17: when the selected divisor is not zero, the adjusted base is at least
the divisor and the minimum, and `base + (base / divisor - 1)` is below
`2 ^ 64`, the value `r` returned by `CalcGasLimit` lies between the base and
the desired gas limit inclusive, so it is never further from the desired gas
limit than the base is. -/
theorem CalcGasLimit_toward_target (P : ProtocolParams) (config : ChainConfig)
    (parent header : Header) (desiredGasLimit : Nat)
    (hd : boundDivisor P config header ≠ 0)
    (hbase : boundDivisor P config header ≤ adjustedBase config parent header)
    (hmin : minGasLimit P config header ≤ adjustedBase config parent header)
    (hov : adjustedBase config parent header +
        (adjustedBase config parent header / boundDivisor P config header - 1) < uint64Mod) :
    ∃ r, CalcGasLimit P config parent header desiredGasLimit = some r ∧
      (adjustedBase config parent header ≤ desiredGasLimit →
        adjustedBase config parent header ≤ r ∧ r ≤ desiredGasLimit) ∧
      (desiredGasLimit ≤ adjustedBase config parent header →
        desiredGasLimit ≤ r ∧ r ≤ adjustedBase config parent header) ∧
      (desiredGasLimit - r) + (r - desiredGasLimit) ≤
        (desiredGasLimit - adjustedBase config parent header) +
          (adjustedBase config parent header - desiredGasLimit) := by
  have hq1 : 1 ≤ adjustedBase config parent header / boundDivisor P config header :=
    Nat.div_pos hbase (by omega)
  have hqle : adjustedBase config parent header / boundDivisor P config header ≤
      adjustedBase config parent header := Nat.div_le_self _ _
  rw [CalcGasLimit_of_range desiredGasLimit
    (gasLimitRange_of_base_ge P config parent header hd hbase hov)]
  by_cases h1 : desiredGasLimit <
      max (adjustedBase config parent header -
        (adjustedBase config parent header / boundDivisor P config header - 1))
        (minGasLimit P config header)
  · rw [if_pos h1]
    refine ⟨_, rfl, ?_, ?_, ?_⟩ <;> omega
  · rw [if_neg h1]
    by_cases h2 : desiredGasLimit > adjustedBase config parent header +
        (adjustedBase config parent header / boundDivisor P config header - 1)
    · rw [if_pos h2]
      refine ⟨_, rfl, ?_, ?_, ?_⟩ <;> omega
    · rw [if_neg h2]
      refine ⟨_, rfl, ?_, ?_, ?_⟩ <;> omega

/-- Witness for C17: a 30,000,000 parent and the target 60,000,000; the result
is the top of the range, 30,029,295. -/
theorem CalcGasLimit_toward_target_witness :
    adjustedBase londonConfig (mkHeader 10 100 30000000) (mkHeader 11 112 0) = 30000000 ∧
      CalcGasLimit exampleParams londonConfig (mkHeader 10 100 30000000) (mkHeader 11 112 0)
        60000000 = some 30029295 ∧
      ∃ r, CalcGasLimit exampleParams londonConfig (mkHeader 10 100 30000000)
          (mkHeader 11 112 0) 60000000 = some r ∧
        (adjustedBase londonConfig (mkHeader 10 100 30000000) (mkHeader 11 112 0) ≤ 60000000 →
          adjustedBase londonConfig (mkHeader 10 100 30000000) (mkHeader 11 112 0) ≤ r ∧
            r ≤ 60000000) ∧
        (60000000 ≤ adjustedBase londonConfig (mkHeader 10 100 30000000) (mkHeader 11 112 0) →
          60000000 ≤ r ∧
            r ≤ adjustedBase londonConfig (mkHeader 10 100 30000000) (mkHeader 11 112 0)) ∧
        (60000000 - r) + (r - 60000000) ≤
          (60000000 - adjustedBase londonConfig (mkHeader 10 100 30000000)
              (mkHeader 11 112 0)) +
            (adjustedBase londonConfig (mkHeader 10 100 30000000) (mkHeader 11 112 0) -
              60000000) :=
  ⟨by decide, by decide,
    CalcGasLimit_toward_target exampleParams londonConfig (mkHeader 10 100 30000000)
      (mkHeader 11 112 0) 60000000 (by decide) (by decide) (by decide) (by decide)⟩

/-! ## Bounded change per block -/

/-- C18: for a parent whose gas limit is a `uint64`, when the selected divisor
is at least 2 and the adjusted base is at least the divisor, every header
accepted by `VerifyGaslimit` has a gas limit `g` with
`|g - base| < base / divisor`, stated as `g < base + base / divisor` and
`base < g + base / divisor`; nothing is assumed about overflow of
`base + maxDiff`. -/
theorem VerifyGaslimit_bounded_change (P : ProtocolParams) (config : ChainConfig)
    (parent header : Header)
    (hp : parent.GasLimit < uint64Mod)
    (hd : 2 ≤ boundDivisor P config header)
    (hbase : boundDivisor P config header ≤ adjustedBase config parent header)
    (hv : VerifyGaslimit P config parent header = some Error.nil) :
    header.GasLimit <
        adjustedBase config parent header +
          adjustedBase config parent header / boundDivisor P config header ∧
      adjustedBase config parent header <
        header.GasLimit +
          adjustedBase config parent header / boundDivisor P config header := by
  have hblt : adjustedBase config parent header < uint64Mod :=
    adjustedBase_lt config parent header hp
  have hq1 : 1 ≤ adjustedBase config parent header / boundDivisor P config header :=
    Nat.div_pos hbase (by omega)
  have hq2 : adjustedBase config parent header / boundDivisor P config header ≤
      adjustedBase config parent header / 2 :=
    Nat.div_le_div_left hd (by decide)
  have hmd : maxDiff P config parent header =
      adjustedBase config parent header / boundDivisor P config header - 1 := by
    unfold maxDiff
    exact sub64_of_le hq1 (by omega)
  have hr := gasLimitRange_of_ne_zero P config parent header (by omega)
  rw [hmd, sub64_of_le (by omega) hblt] at hr
  rw [VerifyGaslimit_of_range hr] at hv
  split at hv
  · exact absurd (Option.some.inj hv) (by intro h; cases h)
  · rename_i hout
    simp only [Bool.or_eq_true, decide_eq_true_eq, not_or, not_lt, gt_iff_lt] at hout
    obtain ⟨hlo, hhi⟩ := hout
    unfold add64 at hhi
    rw [uint64Mod_eq] at hhi hblt
    have hlo' : adjustedBase config parent header -
        (adjustedBase config parent header / boundDivisor P config header - 1) ≤
        header.GasLimit := le_trans (le_max_left _ _) hlo
    omega

/-- Witness for C18: a header at the top of the range of a 30,000,000 parent,
which moves by 29,295, less than `30000000 / 1024 = 29296`. -/
theorem VerifyGaslimit_bounded_change_witness :
    VerifyGaslimit exampleParams londonConfig (mkHeader 10 100 30000000)
        (mkHeader 11 112 30029295) = some Error.nil ∧
      adjustedBase londonConfig (mkHeader 10 100 30000000) (mkHeader 11 112 30029295) /
        boundDivisor exampleParams londonConfig (mkHeader 11 112 30029295) = 29296 ∧
      (mkHeader 11 112 30029295).GasLimit <
        adjustedBase londonConfig (mkHeader 10 100 30000000) (mkHeader 11 112 30029295) +
          adjustedBase londonConfig (mkHeader 10 100 30000000) (mkHeader 11 112 30029295) /
            boundDivisor exampleParams londonConfig (mkHeader 11 112 30029295) ∧
      adjustedBase londonConfig (mkHeader 10 100 30000000) (mkHeader 11 112 30029295) <
        (mkHeader 11 112 30029295).GasLimit +
          adjustedBase londonConfig (mkHeader 10 100 30000000) (mkHeader 11 112 30029295) /
            boundDivisor exampleParams londonConfig (mkHeader 11 112 30029295) :=
  ⟨by decide, by decide,
    VerifyGaslimit_bounded_change exampleParams londonConfig (mkHeader 10 100 30000000)
      (mkHeader 11 112 30029295) (by decide) (by decide) (by decide) (by decide)⟩

/-! ## Keeping the gas limit unchanged -/

theorem adjustedBase_of_no_transition (config : ChainConfig) (parent header : Header)
    (hA : config.IsLondon parent.Number = true ∨ config.IsLondon header.Number = false)
    (hB : config.IsEIP7782 parent.Number parent.Time = true ∨
      config.IsEIP7782 header.Number header.Time = false) :
    adjustedBase config parent header = parent.GasLimit := by
  unfold adjustedBase eip7782Base londonBase
  rcases hA with hA | hA <;> rcases hB with hB | hB <;> simp [hA, hB]

/-- C19: with no London and no EIP-7782 transition between parent and header, a
non-zero selected divisor, `parent.GasLimit` at least the divisor and the
minimum, and `parent.GasLimit + (parent.GasLimit / divisor - 1)` below
`2 ^ 64`, the header with gas limit `parent.GasLimit` is accepted by
`VerifyGaslimit`, and `CalcGasLimit` with desired value `parent.GasLimit`
returns `parent.GasLimit`. -/
theorem VerifyGaslimit_unchanged (P : ProtocolParams) (config : ChainConfig)
    (parent header : Header)
    (hA : config.IsLondon parent.Number = true ∨ config.IsLondon header.Number = false)
    (hB : config.IsEIP7782 parent.Number parent.Time = true ∨
      config.IsEIP7782 header.Number header.Time = false)
    (hd : boundDivisor P config header ≠ 0)
    (hge : boundDivisor P config header ≤ parent.GasLimit)
    (hmin : minGasLimit P config header ≤ parent.GasLimit)
    (hov : parent.GasLimit + (parent.GasLimit / boundDivisor P config header - 1) <
      uint64Mod) :
    VerifyGaslimit P config parent (withGasLimit header parent.GasLimit) = some Error.nil ∧
      CalcGasLimit P config parent header parent.GasLimit = some parent.GasLimit := by
  have hb := adjustedBase_of_no_transition config parent header hA hB
  have hq1 : 1 ≤ parent.GasLimit / boundDivisor P config header :=
    Nat.div_pos hge (by omega)
  have hqle : parent.GasLimit / boundDivisor P config header ≤ parent.GasLimit :=
    Nat.div_le_self _ _
  have hr := gasLimitRange_of_base_ge P config parent header hd (by rw [hb]; exact hge)
    (by rw [hb]; exact hov)
  rw [hb] at hr
  constructor
  · rw [VerifyGaslimit_of_range
      ((gasLimitRange_withGasLimit P config parent header parent.GasLimit).trans hr)]
    have hin : ¬ ((decide ((withGasLimit header parent.GasLimit).GasLimit <
          max (parent.GasLimit - (parent.GasLimit / boundDivisor P config header - 1))
            (minGasLimit P config header)) ||
        decide ((withGasLimit header parent.GasLimit).GasLimit >
          parent.GasLimit + (parent.GasLimit / boundDivisor P config header - 1))) = true) := by
      simp only [withGasLimit, Bool.or_eq_true, decide_eq_true_eq]
      omega
    rw [if_neg hin]
  · rw [CalcGasLimit_of_range parent.GasLimit hr, if_neg (by omega), if_neg (by omega)]

/-- Witness for C19: a 30,000,000 parent under a configuration with London
active everywhere and EIP-7782 nowhere. -/
theorem VerifyGaslimit_unchanged_witness :
    boundDivisor exampleParams londonConfig (mkHeader 11 112 0) ≤
        (mkHeader 10 100 30000000).GasLimit ∧
      minGasLimit exampleParams londonConfig (mkHeader 11 112 0) ≤
        (mkHeader 10 100 30000000).GasLimit ∧
      VerifyGaslimit exampleParams londonConfig (mkHeader 10 100 30000000)
          (withGasLimit (mkHeader 11 112 0) (mkHeader 10 100 30000000).GasLimit) =
        some Error.nil ∧
      CalcGasLimit exampleParams londonConfig (mkHeader 10 100 30000000) (mkHeader 11 112 0)
          (mkHeader 10 100 30000000).GasLimit =
        some (mkHeader 10 100 30000000).GasLimit :=
  ⟨by decide, by decide,
    VerifyGaslimit_unchanged exampleParams londonConfig (mkHeader 10 100 30000000)
      (mkHeader 11 112 0) (Or.inl (by decide)) (Or.inr (by decide)) (by decide) (by decide)
      (by decide) (by decide)⟩

end Misc
